import Mathlib

/-!
Shallow embedding of `src/main.py` (DIOR27/API-Rest), the Spotify OAuth
session broker: configuration loading, the authorization-URL builder
(`spotify_auth`), the callback handler (`callback`), the token waiter
(`get_spotify_token`) and the upstream query functions (`get_track_info`,
`get_top_artists`, `get_top_tracks`).

HTTP traffic is modelled by passing the upstream `HttpResponse` as an
explicit argument; the global dict `spotify_tokens` becomes an explicit
association list threaded through `callback` and, for the waiter's poll
loop, a time-indexed trace `Nat → Dict`.  Python exceptions
(`HTTPException` raises and unhandled `KeyError`s) become the
`PyResult` sum.
-/

set_option autoImplicit false

namespace APIRest

/-- Parsed JSON values, the result of Python's `response.json()`. -/
inductive Json where
  | null
  | bool (b : Bool)
  | int (n : Int)
  | str (s : String)
  | arr (xs : List Json)
  | obj (kvs : List (String × Json))
  deriving Repr

/-- A Python dict with string keys, such as the global `spotify_tokens`.
The empty list is the empty dict `{}` (falsy in Python). -/
abbrev Dict := List (String × Json)

/-- Association-list lookup: Python's `d[k]` / `d.get(k)` on a dict. -/
def dictLookup (d : Dict) (k : String) : Option Json :=
  match d with
  | [] => none
  | (k', v) :: rest => if k' = k then some v else dictLookup rest k

/-- Python `d[k]` on the JSON object `j`: `some v` when `j` is an object
with key `k`, `none` otherwise (a `KeyError`/`TypeError` in Python). -/
def Json.getKey (j : Json) (k : String) : Option Json :=
  match j with
  | .obj kvs => dictLookup kvs k
  | _ => none

mutual

/-- Python `repr()` of a parsed JSON value (`None`, `True`, quoted
strings, `[...]` lists, `{'k': v}` dicts). -/
def Json.pyRepr : Json → String
  | .null => "None"
  | .bool true => "True"
  | .bool false => "False"
  | .int n => toString n
  | .str s => "'" ++ s ++ "'"
  | .arr xs => "[" ++ pyReprList xs ++ "]"
  | .obj kvs => "\x7b" ++ pyReprObj kvs ++ "\x7d"

/-- Comma-separated `repr`s of the elements of a Python list. -/
def pyReprList : List Json → String
  | [] => ""
  | [x] => x.pyRepr
  | x :: y :: rest => x.pyRepr ++ ", " ++ pyReprList (y :: rest)

/-- Comma-separated `'key': repr(value)` entries of a Python dict. -/
def pyReprObj : List (String × Json) → String
  | [] => ""
  | [(k, v)] => "'" ++ k ++ "': " ++ v.pyRepr
  | (k, v) :: kv :: rest => "'" ++ k ++ "': " ++ v.pyRepr ++ ", " ++ pyReprObj (kv :: rest)

end

/-- Python `str()` as used by an f-string: like `repr` except that a bare
string is interpolated without quotes. -/
def Json.pyStr : Json → String
  | .str s => s
  | j => j.pyRepr

/-- A raised FastAPI `HTTPException`. -/
structure HTTPException where
  status_code : Nat
  detail : String
  deriving Repr, DecidableEq

/-- Outcome of one Python endpoint call: a returned value, a raised
`HTTPException`, or an unhandled exception (`KeyError`/`IndexError`,
recorded with the offending key) that escapes the handler. -/
inductive PyResult (α : Type) where
  | ok (val : α)
  | httpError (e : HTTPException)
  | crash (key : String)
  deriving Repr, DecidableEq

/-- The module-level configuration read from the process environment
(lines 15-23 of `main.py`).  `os.getenv` without a default yields
`None` when the variable is absent, hence the `Option`s. -/
structure SpotifyConfig where
  clientId : Option String
  clientSecret : Option String
  redirectUri : String
  deriving Repr, DecidableEq

def SPOTIFY_AUTH_URL : String := "https://accounts.spotify.com/authorize"

def SPOTIFY_TOKEN_URL : String := "https://accounts.spotify.com/api/token"

def SPOTIFY_API_URL : String := "https://api.spotify.com/v1/me/top/artists"

def SCOPE : String := "user-top-read"

/-- `os.getenv("SPOTIFY_CLIENT_ID")`, `os.getenv("SPOTIFY_CLIENT_SECRET")`
and `os.getenv("SPOTIFY_REDIRECT_URI", "http://localhost:8000/callback")`:
plain reads, the redirect URI with a default, the other two kept as
`None` when absent. -/
def loadConfig (env : String → Option String) : SpotifyConfig :=
  { clientId := env "SPOTIFY_CLIENT_ID"
    clientSecret := env "SPOTIFY_CLIENT_SECRET"
    redirectUri := (env "SPOTIFY_REDIRECT_URI").getD "http://localhost:8000/callback" }

/-- Module import / startup (lines 12-25 of `main.py`): the configuration
assignments contain no validation and no raise, so startup always
succeeds with the loaded configuration. -/
def startupOutcome (env : String → Option String) : Except String SpotifyConfig :=
  .ok (loadConfig env)

/-- Interpolating a possibly-`None` Python string into an f-string. -/
def pyOptStr : Option String → String
  | none => "None"
  | some s => s

/-- The `auth_url` string built by `spotify_auth` (lines 239-244): direct
f-string interpolation of the configuration, with no URL-encoding. -/
def authUrlOf (cfg : SpotifyConfig) : String :=
  SPOTIFY_AUTH_URL ++ "?" ++
    "response_type=code&client_id=" ++ pyOptStr cfg.clientId ++
    "&redirect_uri=" ++ cfg.redirectUri ++
    "&scope=" ++ SCOPE

/-- `GET /spotify/auth` (lines 232-245): returns `{"auth_url": auth_url}`. -/
def spotify_auth (cfg : SpotifyConfig) : Dict :=
  [("auth_url", Json.str (authUrlOf cfg))]

/-- Modelled from the spec: RFC 3986 percent-encoding ("URL-encode"),
against which the builder's raw interpolation is compared.  Unreserved
characters (letters, digits, `-._~`) pass through; every other ASCII
character becomes `%XX` with uppercase hex digits. -/
def specHexDigit (n : Nat) : Char :=
  if n < 10 then Char.ofNat (48 + n) else Char.ofNat (55 + n)

/-- Modelled from the spec: whether a character is unreserved under
RFC 3986 and therefore left unencoded. -/
def specUnreserved (c : Char) : Bool :=
  (65 ≤ c.toNat && c.toNat ≤ 90) || (97 ≤ c.toNat && c.toNat ≤ 122) ||
  (48 ≤ c.toNat && c.toNat ≤ 57) || c = '-' || c = '.' || c = '_' || c = '~'

/-- Modelled from the spec: percent-encode one character. -/
def specEncodeChar (c : Char) : List Char :=
  if specUnreserved c then [c]
  else ['%', specHexDigit (c.toNat / 16), specHexDigit (c.toNat % 16)]

/-- Modelled from the spec: URL-encode a string. -/
def specUrlEncode (s : String) : String :=
  ⟨(s.data.map specEncodeChar).flatten⟩

/-- A response from the upstream service (what `requests.post`/`requests.get`
returned), with `response.json()` already parsed. -/
structure HttpResponse where
  status_code : Nat
  body : Json
  deriving Repr

/-- An outgoing request to the upstream service: URL, headers, and the
form data / query params dict. -/
structure UpstreamRequest where
  url : String
  headers : List (String × String)
  data : Dict
  deriving Repr

/-- A possibly-`None` Python string as a JSON-ish request-dict value. -/
def optJson : Option String → Json
  | none => Json.null
  | some s => Json.str s

/-- The form body `callback` POSTs to the token endpoint (lines 270-276). -/
def tokenRequest (cfg : SpotifyConfig) (code : String) : UpstreamRequest :=
  { url := SPOTIFY_TOKEN_URL
    headers := [("Content-Type", "application/x-www-form-urlencoded")]
    data := [("grant_type", .str "authorization_code"),
             ("code", .str code),
             ("redirect_uri", .str cfg.redirectUri),
             ("client_id", optJson cfg.clientId),
             ("client_secret", optJson cfg.clientSecret)] }

/-- `GET /callback` (lines 248-293).  Inputs: the authorization `code`, the
prior contents of the global `spotify_tokens`, and the token endpoint's
response.  Output: the request issued, the endpoint's outcome, and the
new contents of `spotify_tokens`.

On 200 the new dict is built from `token_data["access_token"]`,
`token_data.get("refresh_token")` and `token_data["expires_in"]` — the
two subscripts raise `KeyError` when absent (the dict literal is
evaluated before the global is assigned, so the store is untouched then).
On non-200 an `HTTPException` with the upstream status is raised and the
store is untouched. -/
def callback (cfg : SpotifyConfig) (code : String) (store : Dict)
    (resp : HttpResponse) : UpstreamRequest × PyResult Dict × Dict :=
  (tokenRequest cfg code,
   if resp.status_code = 200 then
     match resp.body.getKey "access_token" with
     | none => (.crash "access_token", store)
     | some accessTok =>
       match resp.body.getKey "expires_in" with
       | none => (.crash "expires_in", store)
       | some expiresIn =>
         let newTokens : Dict :=
           [("access_token", accessTok),
            ("refresh_token", (resp.body.getKey "refresh_token").getD .null),
            ("expires_in", expiresIn)]
         (.ok newTokens, newTokens)
   else
     (.httpError ⟨resp.status_code,
                  "Error al obtener el token: " ++ resp.body.pyStr⟩, store))

/-- The waiter's poll loop (lines 319-325), one poll per 1-second sleep:
at second `t` it first re-checks `while not spotify_tokens` (exit `.ok t`
when the store became non-empty), then `if time.time() - start_time >
timeout` (raise, `.error t`), else sleeps one second and re-polls. -/
def pollLoop (store : Nat → Dict) (timeout : Nat) (t : Nat) : Except Nat Nat :=
  if (store t).isEmpty then
    if timeout < t then .error t
    else pollLoop store timeout (t + 1)
  else .ok t
termination_by timeout + 1 - t
decreasing_by omega

/-- What one `get_spotify_token` call did: its outcome, the auth URL it
opened in the browser (`none` when it skipped the auth flow), and the
second at which it stopped polling (0 when it never waited). -/
structure WaiterOutcome where
  result : PyResult Json
  openedUrl : Option String
  stoppedAt : Nat
  deriving Repr

/-- Python `spotify_tokens["access_token"]`: `KeyError` when absent. -/
def dictIndex (d : Dict) (k : String) : PyResult Json :=
  match dictLookup d k with
  | some v => .ok v
  | none => .crash k

/-- `GET /spotify/get_token` (lines 296-329).  The global `spotify_tokens`
is modelled as the trace `store : Nat → Dict` of its contents at each
poll second (a concurrent `callback` may fill it mid-wait).  If the store
is empty at entry, the auth URL is opened and the poll loop runs with
`timeout = 120`; on timeout an `HTTPException 408` is raised.  Finally
`spotify_tokens["access_token"]` is read from the store as last seen. -/
def get_spotify_token (cfg : SpotifyConfig) (store : Nat → Dict) : WaiterOutcome :=
  if (store 0).isEmpty then
    let url := authUrlOf cfg
    match pollLoop store 120 0 with
    | .error t =>
      { result := .httpError ⟨408,
          "Se agotó el tiempo de espera. No se pudo obtener el tóken de acceso."⟩
        openedUrl := some url
        stoppedAt := t }
    | .ok t =>
      { result := dictIndex (store t) "access_token"
        openedUrl := some url
        stoppedAt := t }
  else
    { result := dictIndex (store 0) "access_token"
      openedUrl := none
      stoppedAt := 0 }

/-- Run an extraction over every element of a Python list comprehension;
the first `KeyError`/`IndexError` aborts the whole call. -/
def traverseE (f : Json → Except String Json) : List Json → Except String (List Json)
  | [] => .ok []
  | x :: xs =>
    match f x with
    | .error k => .error k
    | .ok y =>
      match traverseE f xs with
      | .error k => .error k
      | .ok ys => .ok (y :: ys)

/-- One element of the `get_top_artists` comprehension (lines 387-393):
`{"name": artist["name"], "genres": artist["genres"]}`, subscripts in
Python's evaluation order. -/
def narrowArtist (a : Json) : Except String Json :=
  match a.getKey "name" with
  | none => .error "name"
  | some n =>
    match a.getKey "genres" with
    | none => .error "genres"
    | some g => .ok (.obj [("name", n), ("genres", g)])

/-- One element of the `get_top_tracks` comprehension (lines 428-435):
`{"track_name": track["name"], "artist": track["artists"][0]["name"],
"album": track["album"]["name"]}`.  `track["artists"][0]` raises
`IndexError` on an empty list (recorded as key `"artists[0]"`). -/
def narrowTrack (t : Json) : Except String Json :=
  match t.getKey "name" with
  | none => .error "name"
  | some n =>
    match t.getKey "artists" with
    | none => .error "artists"
    | some (.arr []) => .error "artists[0]"
    | some (.arr (a0 :: _)) =>
      match a0.getKey "name" with
      | none => .error "name"
      | some an =>
        match t.getKey "album" with
        | none => .error "album"
        | some al =>
          match al.getKey "name" with
          | none => .error "name"
          | some aln => .ok (.obj [("track_name", n), ("artist", an), ("album", aln)])
    | some _ => .error "artists[0]"

/-- One element of the `get_track_info` comprehension (lines 343-352):
like `narrowTrack` plus `"release_date"` and `"album_type"` taken from
the track's `album` object. -/
def narrowSearchTrack (t : Json) : Except String Json :=
  match t.getKey "name" with
  | none => .error "name"
  | some n =>
    match t.getKey "artists" with
    | none => .error "artists"
    | some (.arr []) => .error "artists[0]"
    | some (.arr (a0 :: _)) =>
      match a0.getKey "name" with
      | none => .error "name"
      | some an =>
        match t.getKey "album" with
        | none => .error "album"
        | some al =>
          match al.getKey "name", al.getKey "release_date", al.getKey "album_type" with
          | some aln, some rd, some at_ =>
            .ok (.obj [("track_name", n), ("artist", an), ("album", aln),
                       ("release_date", rd), ("album_type", at_)])
          | none, _, _ => .error "name"
          | some _, none, _ => .error "release_date"
          | some _, some _, none => .error "album_type"
    | some _ => .error "artists[0]"

/-- Shared shape of the three query endpoints: against the JSON found at
the items path, map the per-element extraction and (optionally) wrap the
result; any missing key, non-array items value, or per-element failure
is an unhandled exception. -/
def mapItems (items : Option Json) (f : Json → Except String Json)
    (wrap : List Json → Json) : PyResult Json :=
  match items with
  | some (.arr xs) =>
    match traverseE f xs with
    | .ok ys => .ok (wrap ys)
    | .error k => .crash k
  | _ => .crash "items"

/-- `GET /spotify/track_info` (lines 332-358): one GET to the search
endpoint with `{"q": f"{track} {artist}", "type": "track", "limit": 1}`;
on 200 maps `search_data["tracks"]["items"]` and returns the bare list;
on non-200 raises with the upstream status. -/
def get_track_info (access_token track artist : String)
    (resp : HttpResponse) : UpstreamRequest × PyResult Json :=
  ({ url := "https://api.spotify.com/v1/search"
     headers := [("Authorization", "Bearer " ++ access_token)]
     data := [("q", .str (track ++ " " ++ artist)), ("type", .str "track"),
              ("limit", .int 1)] },
   if resp.status_code = 200 then
     mapItems ((resp.body.getKey "tracks").bind (·.getKey "items"))
       narrowSearchTrack Json.arr
   else
     .httpError ⟨resp.status_code,
                 "Error al obtener las canciones: " ++ resp.body.pyStr⟩)

/-- `GET /spotify/top-artists` (lines 361-399): one GET to
`SPOTIFY_API_URL` with `limit`/`time_range`; on 200 maps
`artists_data["items"]` and returns `{"top_artists": artists}`; on
non-200 raises with the upstream status. -/
def get_top_artists (access_token : String) (limit : Int) (time_range : String)
    (resp : HttpResponse) : UpstreamRequest × PyResult Json :=
  ({ url := SPOTIFY_API_URL
     headers := [("Authorization", "Bearer " ++ access_token)]
     data := [("limit", .int limit), ("time_range", .str time_range)] },
   if resp.status_code = 200 then
     mapItems (resp.body.getKey "items") narrowArtist
       (fun ys => .obj [("top_artists", .arr ys)])
   else
     .httpError ⟨resp.status_code,
                 "Error al obtener los artistas: " ++ resp.body.pyStr⟩)

/-- `GET /spotify/top-tracks` (lines 402-441): one GET to the top-tracks
endpoint with `limit`/`time_range`; on 200 maps `tracks_data["items"]`
and returns `{"top_tracks": tracks}`; on non-200 raises with the
upstream status. -/
def get_top_tracks (access_token : String) (limit : Int) (time_range : String)
    (resp : HttpResponse) : UpstreamRequest × PyResult Json :=
  ({ url := "https://api.spotify.com/v1/me/top/tracks"
     headers := [("Authorization", "Bearer " ++ access_token)]
     data := [("limit", .int limit), ("time_range", .str time_range)] },
   if resp.status_code = 200 then
     mapItems (resp.body.getKey "items") narrowTrack
       (fun ys => .obj [("top_tracks", .arr ys)])
   else
     .httpError ⟨resp.status_code,
                 "Error al obtener las canciones: " ++ resp.body.pyStr⟩)

/-! Well-formedness of upstream items (the keys the comprehensions
subscript are present) and the corresponding total extractors, used to
phrase what the 200 branches compute. -/

/-- An artist item has the `name` and `genres` keys. -/
def artistWF (a : Json) : Bool :=
  (a.getKey "name").isSome && (a.getKey "genres").isSome

/-- The narrowed artist record `{"name": ..., "genres": ...}`. -/
def artistRec (a : Json) : Json :=
  .obj [("name", (a.getKey "name").getD .null),
        ("genres", (a.getKey "genres").getD .null)]

/-- `track["artists"][0]["name"]` when it exists. -/
def headArtistName (t : Json) : Json :=
  match t.getKey "artists" with
  | some (.arr (a0 :: _)) => (a0.getKey "name").getD .null
  | _ => .null

/-- `track["album"][k]` when it exists. -/
def albumField (t : Json) (k : String) : Json :=
  (((t.getKey "album").getD .null).getKey k).getD .null

/-- A track item has `name`, a non-empty `artists` list whose head has
`name`, and an `album` object with `name`. -/
def trackWF (t : Json) : Bool :=
  (t.getKey "name").isSome &&
  (match t.getKey "artists" with
   | some (.arr (a0 :: _)) => (a0.getKey "name").isSome
   | _ => false) &&
  (match t.getKey "album" with
   | some al => (al.getKey "name").isSome
   | _ => false)

/-- The narrowed top-track record. -/
def trackRec (t : Json) : Json :=
  .obj [("track_name", (t.getKey "name").getD .null),
        ("artist", headArtistName t),
        ("album", albumField t "name")]

/-- A search-result track additionally has `release_date` and
`album_type` on its album. -/
def searchTrackWF (t : Json) : Bool :=
  trackWF t &&
  (match t.getKey "album" with
   | some al => (al.getKey "release_date").isSome && (al.getKey "album_type").isSome
   | _ => false)

/-- The narrowed search-track record. -/
def searchTrackRec (t : Json) : Json :=
  .obj [("track_name", (t.getKey "name").getD .null),
        ("artist", headArtistName t),
        ("album", albumField t "name"),
        ("release_date", albumField t "release_date"),
        ("album_type", albumField t "album_type")]

/-- The credential dict built by a successful `callback` from the token
endpoint's body: the two mandatory subscripts and the `.get` default. -/
def newCredential (body : Json) : Dict :=
  [("access_token", (body.getKey "access_token").getD .null),
   ("refresh_token", (body.getKey "refresh_token").getD .null),
   ("expires_in", (body.getKey "expires_in").getD .null)]

/-- Length of a returned JSON list, 0 for any other outcome. -/
def resultLen : PyResult Json → Nat
  | .ok (.arr xs) => xs.length
  | _ => 0

/-! Concrete sample inputs used by witnesses and counterexamples. -/

/-- The configuration loaded from an empty environment: `None` client id
and secret, the default redirect URI. -/
def demoConfig : SpotifyConfig := loadConfig (fun _ => none)

/-- A stored credential dict holding access token `"tok2"`. -/
def tok2Dict : Dict :=
  [("access_token", .str "tok2"), ("refresh_token", .null), ("expires_in", .int 3600)]

/-- A 200 token-endpoint response lacking `refresh_token`. -/
def tokenResp200 : HttpResponse :=
  ⟨200, .obj [("access_token", .str "tok1"), ("expires_in", .int 3600)]⟩

/-- A rejected token exchange. -/
def tokenResp400 : HttpResponse :=
  ⟨400, .obj [("error", .str "invalid_grant")]⟩

/-- A wellformed artist item. -/
def artistItem : Json := .obj [("name", .str "A"), ("genres", .arr [.str "g"])]

/-- A wellformed track item (valid for top-tracks and for search). -/
def trackItem : Json :=
  .obj [("name", .str "T"),
        ("artists", .arr [.obj [("name", .str "A")]]),
        ("album", .obj [("name", .str "Al"), ("release_date", .str "2020-01-01"),
                        ("album_type", .str "album")])]

/-- A second wellformed track item. -/
def trackItemB : Json :=
  .obj [("name", .str "U"),
        ("artists", .arr [.obj [("name", .str "B")]]),
        ("album", .obj [("name", .str "Bl"), ("release_date", .str "2021-02-02"),
                        ("album_type", .str "single")])]

/-- A 200 search response with a single track item. -/
def searchResp : HttpResponse :=
  ⟨200, .obj [("tracks", .obj [("items", .arr [trackItem])])]⟩

/-- A 200 search response carrying two items despite `limit=1`. -/
def searchRespTwo : HttpResponse :=
  ⟨200, .obj [("tracks", .obj [("items", .arr [trackItem, trackItemB])])]⟩

/-! Helper lemmas. -/

theorem infix_of_parts {a b c d : List Char} (h : a ++ b ++ c = d) : b <:+: d :=
  ⟨a, c, h⟩

theorem narrowArtist_of_wf {a : Json} (h : artistWF a = true) :
    narrowArtist a = .ok (artistRec a) := by
  unfold artistWF at h
  cases hn : a.getKey "name" with
  | none => simp [hn] at h
  | some n =>
    cases hg : a.getKey "genres" with
    | none => simp [hn, hg] at h
    | some g => simp [narrowArtist, artistRec, hn, hg]

theorem narrowTrack_of_wf {t : Json} (h : trackWF t = true) :
    narrowTrack t = .ok (trackRec t) := by
  unfold trackWF at h
  cases hn : t.getKey "name" with
  | none => simp [hn] at h
  | some n =>
    cases ha : t.getKey "artists" with
    | none => simp [hn, ha] at h
    | some arts =>
      match arts with
      | .arr [] => simp [hn, ha] at h
      | .arr (a0 :: rest) =>
        cases han : a0.getKey "name" with
        | none => simp [hn, ha, han] at h
        | some an =>
          cases hal : t.getKey "album" with
          | none => simp [hn, ha, han, hal] at h
          | some al =>
            cases haln : al.getKey "name" with
            | none => simp [hn, ha, han, hal, haln] at h
            | some aln =>
              simp [narrowTrack, trackRec, headArtistName, albumField,
                    hn, ha, han, hal, haln]
      | .null => simp [hn, ha] at h
      | .bool b => simp [hn, ha] at h
      | .int n' => simp [hn, ha] at h
      | .str s => simp [hn, ha] at h
      | .obj kvs => simp [hn, ha] at h

theorem narrowSearchTrack_of_wf {t : Json} (h : searchTrackWF t = true) :
    narrowSearchTrack t = .ok (searchTrackRec t) := by
  unfold searchTrackWF trackWF at h
  cases hn : t.getKey "name" with
  | none => simp [hn] at h
  | some n =>
    cases ha : t.getKey "artists" with
    | none => simp [hn, ha] at h
    | some arts =>
      match arts with
      | .arr [] => simp [hn, ha] at h
      | .arr (a0 :: rest) =>
        cases han : a0.getKey "name" with
        | none => simp [hn, ha, han] at h
        | some an =>
          cases hal : t.getKey "album" with
          | none => simp [hn, ha, han, hal] at h
          | some al =>
            cases haln : al.getKey "name" with
            | none => simp [hn, ha, han, hal, haln] at h
            | some aln =>
              cases hrd : al.getKey "release_date" with
              | none => simp [hn, ha, han, hal, haln, hrd] at h
              | some rd =>
                cases hat : al.getKey "album_type" with
                | none => simp [hn, ha, han, hal, haln, hrd, hat] at h
                | some at_ =>
                  simp [narrowSearchTrack, searchTrackRec, headArtistName,
                        albumField, hn, ha, han, hal, haln, hrd, hat]
      | .null => simp [hn, ha] at h
      | .bool b => simp [hn, ha] at h
      | .int n' => simp [hn, ha] at h
      | .str s => simp [hn, ha] at h
      | .obj kvs => simp [hn, ha] at h

theorem traverseE_of_wf {p : Json → Bool} {g : Json → Json}
    (f : Json → Except String Json)
    (hf : ∀ x, p x = true → f x = .ok (g x)) :
    ∀ xs : List Json, (∀ x ∈ xs, p x = true) →
      traverseE f xs = .ok (xs.map g) := by
  intro xs
  induction xs with
  | nil => intro _; rfl
  | cons x rest ih =>
    intro hall
    have hx := hf x (hall x (by simp))
    have hrest := ih (fun y hy => hall y (by simp [hy]))
    simp [traverseE, hx, hrest]

theorem mapItems_of_wf {p : Json → Bool} {g : Json → Json}
    (f : Json → Except String Json) (wrap : List Json → Json)
    (hf : ∀ x, p x = true → f x = .ok (g x))
    (xs : List Json) (hall : ∀ x ∈ xs, p x = true) :
    mapItems (some (.arr xs)) f wrap = .ok (wrap (xs.map g)) := by
  simp [mapItems, traverseE_of_wf f hf xs hall]

theorem dictLookup_ne_nil {d : Dict} {k : String} {v : Json}
    (h : dictLookup d k = some v) : d.isEmpty = false := by
  cases d with
  | nil => simp [dictLookup] at h
  | cons kv rest => rfl

theorem pollLoop_never (store : Nat → Dict) (timeout : Nat)
    (h : ∀ s, (store s).isEmpty = true) :
    ∀ k t, t + k = timeout + 1 → pollLoop store timeout t = .error (timeout + 1) := by
  intro k
  induction k with
  | zero =>
    intro t ht
    unfold pollLoop
    rw [h t]
    simp only [if_true]
    have hlt : timeout < t := by omega
    simp [hlt]
    omega
  | succ k ih =>
    intro t ht
    unfold pollLoop
    rw [h t]
    have hle : ¬ timeout < t := by omega
    simp only [if_true, hle, if_false]
    exact ih (t + 1) (by omega)

theorem callback_200_eq (cfg : SpotifyConfig) (code : String) (store : Dict)
    (resp : HttpResponse) (h200 : resp.status_code = 200)
    {a e : Json} (ha : resp.body.getKey "access_token" = some a)
    (he : resp.body.getKey "expires_in" = some e) :
    callback cfg code store resp =
      (tokenRequest cfg code, .ok (newCredential resp.body), newCredential resp.body) := by
  simp [callback, h200, ha, he, newCredential]

/-! Claim theorems. -/

/-- C1: with the Credential Store empty and no callback ever storing a
credential, `get_spotify_token` raises the 408 `AuthorizationTimeout`
(carrying the fixed timeout message, not an upstream status), and its
poll loop stops no earlier than the configured 120 seconds and no later
than 120 plus one 1-second polling interval, one poll per interval. -/
theorem c1_authorization_timeout_window (cfg : SpotifyConfig) (store : Nat → Dict)
    (h : ∀ t, (store t).isEmpty = true) :
    (get_spotify_token cfg store).result =
      .httpError ⟨408,
        "Se agotó el tiempo de espera. No se pudo obtener el tóken de acceso."⟩ ∧
    120 ≤ (get_spotify_token cfg store).stoppedAt ∧
    (get_spotify_token cfg store).stoppedAt ≤ 120 + 1 := by
  have hp := pollLoop_never store 120 h 121 0 (by omega)
  unfold get_spotify_token
  rw [h 0]
  simp [hp]

/-- Witness for C1: the constantly-empty trace times out with 408. -/
theorem c1_authorization_timeout_window_witness :
    (∀ t : Nat, (((fun _ => []) : Nat → Dict) t).isEmpty = true) ∧
    (get_spotify_token demoConfig (fun _ => [])).result =
      .httpError ⟨408,
        "Se agotó el tiempo de espera. No se pudo obtener el tóken de acceso."⟩ :=
  ⟨fun _ => rfl,
   (c1_authorization_timeout_window demoConfig (fun _ => []) (fun _ => rfl)).1⟩

/-- C2: when the store already holds a credential, `get_spotify_token`
returns exactly the stored `access_token` value with no authorization URL
surfaced and no wait, and any call seeing the same store contents returns
the same outcome. -/
theorem c2_cached_token_immediate (cfg : SpotifyConfig) (store : Nat → Dict)
    (v : Json) (h : dictLookup (store 0) "access_token" = some v) :
    get_spotify_token cfg store = ⟨.ok v, none, 0⟩ ∧
    ∀ store' : Nat → Dict, store' 0 = store 0 →
      get_spotify_token cfg store' = get_spotify_token cfg store := by
  have hne := dictLookup_ne_nil h
  constructor
  · unfold get_spotify_token
    rw [hne]
    simp [dictIndex, h]
  · intro store' h0
    unfold get_spotify_token
    rw [h0, hne]
    simp

/-- Witness for C2: with `"tok2"` stored, the waiter returns `"tok2"`
immediately, opening no URL. -/
theorem c2_cached_token_immediate_witness :
    dictLookup tok2Dict "access_token" = some (.str "tok2") ∧
    get_spotify_token demoConfig (fun _ => tok2Dict) =
      ⟨.ok (.str "tok2"), none, 0⟩ :=
  ⟨rfl, (c2_cached_token_immediate demoConfig (fun _ => tok2Dict) _ rfl).1⟩

/-- C3: on any non-200 from the token endpoint, `callback` raises an
`HTTPException` carrying the upstream status code and leaves the
Credential Store exactly as it was. -/
theorem c3_non200_leaves_store (cfg : SpotifyConfig) (code : String)
    (store : Dict) (resp : HttpResponse) (h : resp.status_code ≠ 200) :
    callback cfg code store resp =
      (tokenRequest cfg code,
       .httpError ⟨resp.status_code,
                   "Error al obtener el token: " ++ resp.body.pyStr⟩,
       store) := by
  simp [callback, h]

/-- Witness for C3: a 400 rejection raises 400 and keeps the prior
stored credential untouched. -/
theorem c3_non200_leaves_store_witness :
    tokenResp400.status_code ≠ 200 ∧
    callback demoConfig "ABC" tok2Dict tokenResp400 =
      (tokenRequest demoConfig "ABC",
       .httpError ⟨tokenResp400.status_code,
                   "Error al obtener el token: " ++ tokenResp400.body.pyStr⟩,
       tok2Dict) :=
  ⟨by decide, c3_non200_leaves_store demoConfig "ABC" tok2Dict tokenResp400 (by decide)⟩

/-- C4 counterexample: with the default configuration, the percent-encoded
form of the redirect URI does not occur in the produced authorization
URL — `spotify_auth` interpolates the raw URI and performs no
URL-encoding, so the claim's encoding requirement fails. -/
theorem c4_counterexample_no_urlencoding :
    ¬ (specUrlEncode demoConfig.redirectUri).data <:+: (authUrlOf demoConfig).data := by
  set_option maxRecDepth 4000 in decide

/-- C4 (amended): `spotify_auth` is a pure function of the static
configuration returning `{"auth_url": url}` where `url` contains
`response_type=code`, the (possibly `None`) client id, the redirect URI
and the scope — each interpolated raw, without URL-encoding. -/
theorem c4_auth_url_contents (cfg : SpotifyConfig) :
    spotify_auth cfg = [("auth_url", .str (authUrlOf cfg))] ∧
    "response_type=code".data <:+: (authUrlOf cfg).data ∧
    ("client_id=" ++ pyOptStr cfg.clientId).data <:+: (authUrlOf cfg).data ∧
    ("redirect_uri=" ++ cfg.redirectUri).data <:+: (authUrlOf cfg).data ∧
    ("scope=" ++ SCOPE).data <:+: (authUrlOf cfg).data := by
  refine ⟨rfl, ?_, ?_, ?_, ?_⟩
  · apply infix_of_parts
      (a := "https://accounts.spotify.com/authorize?".data)
      (c := "&client_id=".data ++ (pyOptStr cfg.clientId).data ++
            "&redirect_uri=".data ++ cfg.redirectUri.data ++
            "&scope=user-top-read".data)
    show _ = (authUrlOf cfg).data
    simp [authUrlOf, SPOTIFY_AUTH_URL, SCOPE]
  · apply infix_of_parts
      (a := "https://accounts.spotify.com/authorize?response_type=code&".data)
      (c := "&redirect_uri=".data ++ cfg.redirectUri.data ++
            "&scope=user-top-read".data)
    show _ = (authUrlOf cfg).data
    simp [authUrlOf, SPOTIFY_AUTH_URL, SCOPE]
  · apply infix_of_parts
      (a := "https://accounts.spotify.com/authorize?response_type=code&client_id=".data ++
            (pyOptStr cfg.clientId).data ++ ['&'])
      (c := "&scope=user-top-read".data)
    show _ = (authUrlOf cfg).data
    simp [authUrlOf, SPOTIFY_AUTH_URL, SCOPE]
  · apply infix_of_parts
      (a := "https://accounts.spotify.com/authorize?response_type=code&client_id=".data ++
            (pyOptStr cfg.clientId).data ++ "&redirect_uri=".data ++
            cfg.redirectUri.data ++ ['&'])
      (c := [])
    show _ = (authUrlOf cfg).data
    simp [authUrlOf, SPOTIFY_AUTH_URL, SCOPE]

/-- C5: a successful (200, well-formed body) `callback` stores the newly
built credential as the store's sole contents — independent of the prior
store, so any prior credential is fully replaced with no merging — and
returns that same credential to the caller. -/
theorem c5_success_sole_replacement (cfg : SpotifyConfig) (code : String)
    (store : Dict) (resp : HttpResponse) (h200 : resp.status_code = 200)
    (ha : (resp.body.getKey "access_token").isSome = true)
    (he : (resp.body.getKey "expires_in").isSome = true) :
    callback cfg code store resp =
      (tokenRequest cfg code, .ok (newCredential resp.body), newCredential resp.body) := by
  match hA : resp.body.getKey "access_token", hE : resp.body.getKey "expires_in" with
  | some a, some e => exact callback_200_eq cfg code store resp h200 hA hE
  | none, _ => rw [hA] at ha; simp at ha
  | some a, none => rw [hE] at he; simp at he

/-- Witness for C5: a 200 exchange over a prior `"tok2"` credential
replaces it with the `"tok1"` credential and returns it. -/
theorem c5_success_sole_replacement_witness :
    tokenResp200.status_code = 200 ∧
    (tokenResp200.body.getKey "access_token").isSome = true ∧
    (tokenResp200.body.getKey "expires_in").isSome = true ∧
    callback demoConfig "ABC" tok2Dict tokenResp200 =
      (tokenRequest demoConfig "ABC",
       .ok (newCredential tokenResp200.body), newCredential tokenResp200.body) :=
  ⟨rfl, rfl, rfl,
   c5_success_sole_replacement demoConfig "ABC" tok2Dict tokenResp200 rfl rfl rfl⟩

/-- C6 counterexample: the credential stored by a successful `callback`
(200 body `{"access_token": "tok1", "expires_in": 3600}`) carries exactly
the keys `access_token`, `refresh_token`, `expires_in` — no
`obtained_at` timestamp is recorded, refuting the claimed shape. -/
theorem c6_counterexample_no_obtained_at :
    dictLookup (callback demoConfig "ABC" [] tokenResp200).2.2 "obtained_at" = none ∧
    ((callback demoConfig "ABC" [] tokenResp200).2.2).map Prod.fst =
      ["access_token", "refresh_token", "expires_in"] :=
  ⟨rfl, rfl⟩

/-- C6 (amended): every credential created by `callback` has the shape
`{access_token, refresh_token (null when absent), expires_in}` — exactly
those three keys, with no `obtained_at` timestamp. -/
theorem c6_credential_shape (cfg : SpotifyConfig) (code : String)
    (store : Dict) (resp : HttpResponse) (h200 : resp.status_code = 200)
    {a e : Json} (ha : resp.body.getKey "access_token" = some a)
    (he : resp.body.getKey "expires_in" = some e) :
    ((callback cfg code store resp).2.2).map Prod.fst =
      ["access_token", "refresh_token", "expires_in"] ∧
    dictLookup (callback cfg code store resp).2.2 "access_token" = some a ∧
    dictLookup (callback cfg code store resp).2.2 "expires_in" = some e ∧
    dictLookup (callback cfg code store resp).2.2 "obtained_at" = none := by
  rw [callback_200_eq cfg code store resp h200 ha he]
  refine ⟨rfl, ?_, ?_, ?_⟩
  · simp [newCredential, dictLookup, ha]
  · simp [newCredential, dictLookup, he]
  · simp [newCredential, dictLookup]

/-- Witness for C6 (amended): the `"tok1"` credential has the three keys
and no `obtained_at`. -/
theorem c6_credential_shape_witness :
    tokenResp200.status_code = 200 ∧
    tokenResp200.body.getKey "access_token" = some (.str "tok1") ∧
    tokenResp200.body.getKey "expires_in" = some (.int 3600) ∧
    dictLookup (callback demoConfig "ABC" tok2Dict tokenResp200).2.2 "obtained_at" = none :=
  ⟨rfl, rfl, rfl,
   (c6_credential_shape demoConfig "ABC" tok2Dict tokenResp200 rfl rfl rfl).2.2.2⟩

/-- C7: the module-level configuration load performs no validation — with
every environment variable absent, startup still succeeds, binding a
`None` client id and secret and the default redirect URI instead of
failing fast. -/
theorem c7_startup_never_fails_fast :
    startupOutcome (fun _ => none) =
      .ok { clientId := none, clientSecret := none,
            redirectUri := "http://localhost:8000/callback" } := rfl

/-- C8: each upstream query function raises, on any non-200, an
`HTTPException` carrying the upstream status code, and returns, on a 200
with well-formed items, the JSON array under `items` (respectively
`tracks.items` for search) mapped elementwise into the narrowed
per-endpoint records. -/
theorem c8_query_functions_branches (tok : String) (limit : Int)
    (tr track artist : String) (resp : HttpResponse) :
    (resp.status_code ≠ 200 →
      (get_top_artists tok limit tr resp).2 =
        .httpError ⟨resp.status_code,
                    "Error al obtener los artistas: " ++ resp.body.pyStr⟩ ∧
      (get_top_tracks tok limit tr resp).2 =
        .httpError ⟨resp.status_code,
                    "Error al obtener las canciones: " ++ resp.body.pyStr⟩ ∧
      (get_track_info tok track artist resp).2 =
        .httpError ⟨resp.status_code,
                    "Error al obtener las canciones: " ++ resp.body.pyStr⟩) ∧
    (resp.status_code = 200 →
      (∀ xs : List Json, resp.body.getKey "items" = some (.arr xs) →
        ((∀ x ∈ xs, artistWF x = true) →
          (get_top_artists tok limit tr resp).2 =
            .ok (.obj [("top_artists", .arr (xs.map artistRec))])) ∧
        ((∀ x ∈ xs, trackWF x = true) →
          (get_top_tracks tok limit tr resp).2 =
            .ok (.obj [("top_tracks", .arr (xs.map trackRec))]))) ∧
      (∀ xs : List Json,
        (resp.body.getKey "tracks").bind (fun j => j.getKey "items") = some (.arr xs) →
        (∀ x ∈ xs, searchTrackWF x = true) →
        (get_track_info tok track artist resp).2 = .ok (.arr (xs.map searchTrackRec)))) := by
  constructor
  · intro hne
    exact ⟨by simp [get_top_artists, hne], by simp [get_top_tracks, hne],
           by simp [get_track_info, hne]⟩
  · intro h200
    constructor
    · intro xs hit
      constructor
      · intro hall
        simp only [get_top_artists, h200, if_true, hit]
        exact mapItems_of_wf narrowArtist _ (fun x hx => narrowArtist_of_wf hx) xs hall
      · intro hall
        simp only [get_top_tracks, h200, if_true, hit]
        exact mapItems_of_wf narrowTrack _ (fun x hx => narrowTrack_of_wf hx) xs hall
    · intro xs hit hall
      simp only [get_track_info, h200, if_true, hit]
      exact mapItems_of_wf narrowSearchTrack _ (fun x hx => narrowSearchTrack_of_wf hx) xs hall

/-- Witness for C8: a 503 response raises 503 from `get_top_artists`, and
a 200 search response with one well-formed item maps it to the narrowed
search record. -/
theorem c8_query_functions_branches_witness :
    ((503 : Nat) ≠ 200 ∧
     (get_top_artists "tok" 10 "medium_term" ⟨503, .str "oops"⟩).2 =
       .httpError ⟨(503 : Nat), "Error al obtener los artistas: " ++ (Json.str "oops").pyStr⟩) ∧
    (searchResp.status_code = 200 ∧
     (get_track_info "tok" "T" "A" searchResp).2 =
       .ok (.arr ([trackItem].map searchTrackRec))) :=
  ⟨⟨by decide,
    ((c8_query_functions_branches "tok" 10 "medium_term" "T" "A" ⟨503, .str "oops"⟩).1
      (by decide)).1⟩,
   ⟨rfl,
    ((c8_query_functions_branches "tok" 10 "medium_term" "T" "A" searchResp).2
      rfl).2 [trackItem] rfl (by intro x hx; rw [List.mem_singleton] at hx; subst hx; rfl)⟩⟩

/-- C9 counterexample: the search request is sent with `limit=1`, but the
handler maps every element of `tracks.items`; on a 200 response carrying
two items it returns two records, so the returned list is not "at most
one track record" for every successful upstream response. -/
theorem c9_counterexample_two_records :
    ¬ resultLen (get_track_info "tok" "T" "A" searchRespTwo).2 ≤ 1 := by
  decide

/-- C9 (amended): `get_track_info` always sends `limit=1` in its query
params, and whenever the upstream honors the limit (at most one element
under `tracks.items`), the returned list has at most one record. -/
theorem c9_limit_one (tok track artist : String) (resp : HttpResponse) :
    dictLookup (get_track_info tok track artist resp).1.data "limit" =
      some (.int 1) ∧
    (∀ xs : List Json, resp.status_code = 200 →
      (resp.body.getKey "tracks").bind (fun j => j.getKey "items") = some (.arr xs) →
      (∀ x ∈ xs, searchTrackWF x = true) →
      xs.length ≤ 1 →
      resultLen (get_track_info tok track artist resp).2 ≤ 1) := by
  constructor
  · rfl
  · intro xs h200 hit hall hlen
    simp only [get_track_info, h200, if_true, hit]
    rw [mapItems_of_wf narrowSearchTrack _ (fun x hx => narrowSearchTrack_of_wf hx) xs hall]
    simpa [resultLen] using hlen

/-- Witness for C9 (amended): the one-item search response yields at most
one record. -/
theorem c9_limit_one_witness :
    searchResp.status_code = 200 ∧
    (searchResp.body.getKey "tracks").bind (fun j => j.getKey "items") =
      some (.arr [trackItem]) ∧
    ([trackItem] : List Json).length ≤ 1 ∧
    resultLen (get_track_info "tok" "T" "A" searchResp).2 ≤ 1 :=
  ⟨rfl, rfl, by decide,
   (c9_limit_one "tok" "T" "A" searchResp).2 [trackItem] rfl rfl
     (by intro x hx; rw [List.mem_singleton] at hx; subst hx; rfl) (by decide)⟩

/-- C10: a 200 token response whose body lacks `access_token` (or, with
it present, lacks `expires_in`) makes `callback` crash with the
unhandled `KeyError` for that key — not a structured `HTTPException` —
leaving the store untouched; so the success branch is total only when
both keys are present. -/
theorem c10_missing_keys_crash (cfg : SpotifyConfig) (code : String)
    (store : Dict) (resp : HttpResponse) (h200 : resp.status_code = 200) :
    (resp.body.getKey "access_token" = none →
      callback cfg code store resp =
        (tokenRequest cfg code, .crash "access_token", store)) ∧
    (∀ a : Json, resp.body.getKey "access_token" = some a →
      resp.body.getKey "expires_in" = none →
      callback cfg code store resp =
        (tokenRequest cfg code, .crash "expires_in", store)) := by
  constructor
  · intro ha
    simp [callback, h200, ha]
  · intro a ha he
    simp [callback, h200, ha, he]

/-- Witness for C10: a 200 body with only `token_type` crashes with
`KeyError: access_token`; a 200 body with only `access_token` crashes
with `KeyError: expires_in`. -/
theorem c10_missing_keys_crash_witness :
    ((Json.obj [("token_type", .str "Bearer")]).getKey "access_token" = none ∧
     callback demoConfig "ABC" tok2Dict ⟨200, .obj [("token_type", .str "Bearer")]⟩ =
       (tokenRequest demoConfig "ABC", .crash "access_token", tok2Dict)) ∧
    ((Json.obj [("access_token", .str "t")]).getKey "access_token" = some (.str "t") ∧
     (Json.obj [("access_token", .str "t")]).getKey "expires_in" = none ∧
     callback demoConfig "ABC" tok2Dict ⟨200, .obj [("access_token", .str "t")]⟩ =
       (tokenRequest demoConfig "ABC", .crash "expires_in", tok2Dict)) :=
  ⟨⟨rfl,
    (c10_missing_keys_crash demoConfig "ABC" tok2Dict
      ⟨200, .obj [("token_type", .str "Bearer")]⟩ rfl).1 rfl⟩,
   ⟨rfl, rfl,
    (c10_missing_keys_crash demoConfig "ABC" tok2Dict
      ⟨200, .obj [("access_token", .str "t")]⟩ rfl).2 (.str "t") rfl rfl⟩⟩

end APIRest
